import Mathlib

/-!
Verification development for the ICU-Causal-ML-Evaluation repository.

The repository consists of three tiny compute-print-persist pipelines.  The
two source files under verification are
`notebooks/scenario_B_iptw_calculation.py` (inverse-probability-of-treatment
weights for a fixed four-patient cohort) and
`notebooks/scenario_C_calibration_evaluation.py` (a single algebraic
rearrangement of the calibration-in-the-large formula plus interpretation
text).

Modelling conventions:
* Python float arithmetic on the decimal literals of the source is modelled
  at two levels of fidelity.  The idealised level computes exactly over `ℚ`
  on the decimal values the literals denote; it agrees with the IEEE double
  run at every printed/persisted precision used by the scripts.  The
  float64 level (`fl`, `fsub64`, `fdiv64`, `fadd64` and the `...64`
  pipeline) additionally rounds every literal and every operation result to
  the nearest 53-bit-significand value with ties to even, which is bit-exact
  IEEE-754 double semantics for the normal-range values these scripts
  produce; it decides the claims that assert exact equality of computed
  values.
* numpy float division never raises: a zero denominator yields a non-finite
  value (`inf`) that silently propagates.  Division results are therefore
  modelled as `Option ℚ`, with `none` standing for a non-finite float.
* The persisted output file of each scenario is modelled as its list of
  text lines, parametrised by the generation timestamp (the only
  non-deterministic input, read from the ambient clock).
-/

/-- Two-digit zero-padded decimal rendering, as produced by the `%m`, `%d`,
`%H`, `%M`, `%S` directives of `strftime` for in-range field values. -/
def pad2 (n : ℕ) : String :=
  String.mk [Nat.digitChar (n / 10 % 10), Nat.digitChar (n % 10)]

/-- Four-digit zero-padded decimal rendering, as produced by the `%Y`
directive of `strftime` for years up to 9999; also used for the fractional
part of `%.4f` formatting. -/
def pad4 (n : ℕ) : String :=
  String.mk [Nat.digitChar (n / 1000 % 10), Nat.digitChar (n / 100 % 10),
             Nat.digitChar (n / 10 % 10), Nat.digitChar (n % 10)]

/-- Model of `pd.Timestamp.now().strftime("%Y-%m-%d %H:%M:%S")` applied to a
clock reading with the given six fields (faithful for in-range field
values: year ≤ 9999, month/day/hour/minute/second below 100). -/
def strftimeYmdHMS (y mo d h mi s : ℕ) : String :=
  pad4 y ++ "-" ++ pad2 mo ++ "-" ++ pad2 d ++ " " ++
  pad2 h ++ ":" ++ pad2 mi ++ ":" ++ pad2 s

/-- Model of Python `str()` applied to a float whose value is a rational
with at most one decimal place (e.g. `str(0.5) = "0.5"`,
`str(-0.1) = "-0.1"`), the only values the scripts interpolate this way. -/
def fmtQ1 (q : ℚ) : String :=
  if q < 0 then
    "-" ++ toString ((⌊-q⌋).toNat) ++ "." ++ String.mk [Nat.digitChar ((⌊-q * 10⌋).toNat % 10)]
  else
    toString ((⌊q⌋).toNat) ++ "." ++ String.mk [Nat.digitChar ((⌊q * 10⌋).toNat % 10)]

/-- Model of Python `"%.2f"` / `:.2f` formatting for a non-negative value
with a terminating two-decimal expansion. -/
def fmtFixed2 (q : ℚ) : String :=
  toString ((⌊q * 100⌋).toNat / 100) ++ "." ++ pad2 ((⌊q * 100⌋).toNat % 100)

/-- Round to the nearest integer, ties to even: the rounding used both by
IEEE-754 binary arithmetic (on the scaled significand) and by `printf`-style
fixed-point formatting of a double. -/
def rnd (x : ℚ) : ℤ :=
  if x - ⌊x⌋ < 1/2 then ⌊x⌋
  else if (1:ℚ)/2 < x - ⌊x⌋ then ⌊x⌋ + 1
  else if ⌊x⌋ % 2 = 0 then ⌊x⌋ else ⌊x⌋ + 1

/-- Correct rounding of a real (rational) value to the nearest IEEE-754
binary64 value: the significand is rounded to 53 bits, ties to even.
Faithful for the normal range (no overflow/underflow), which covers every
value these scripts produce. -/
def fl (q : ℚ) : ℚ :=
  if q = 0 then 0
  else (if q < 0 then (-1 : ℚ) else 1) *
    (rnd (|q| * (2:ℚ) ^ (-(Int.log 2 |q| - 52))) : ℚ) * (2:ℚ) ^ (Int.log 2 |q| - 52)

/-- float64 subtraction: the exact difference, correctly rounded. -/
def fsub64 (a b : ℚ) : ℚ := fl (a - b)

/-- float64 addition: the exact sum, correctly rounded. -/
def fadd64 (a b : ℚ) : ℚ := fl (a + b)

/-- float64 division: the exact quotient, correctly rounded; a zero
denominator yields a non-finite value (`none`), as in numpy. -/
def fdiv64 (a b : ℚ) : Option ℚ := if b = 0 then none else some (fl (a / b))

/-- Sequential float64 sum of a list of modelled float values, as pandas
`.sum()` performs it (for these four summands pairwise summation gives the
identical result); a non-finite summand makes the sum non-finite. -/
def optSum64 (l : List (Option ℚ)) : Option ℚ :=
  l.foldl (fun acc a => acc.bind (fun x => a.map (fun y => fadd64 x y))) (some 0)

/-- Model of Python `"%.4f"` formatting (pandas `float_format`) for a
non-negative value: four decimal places, rounding to nearest with ties to
even, as `printf` does on a double. -/
def fmtFixed4 (q : ℚ) : String :=
  toString ((rnd (q * 10000)).toNat / 10000) ++ "." ++ pad4 ((rnd (q * 10000)).toNat % 10000)

/-- Model of numpy/pandas float division: a zero denominator produces a
non-finite value (`inf`) rather than raising; `none` stands for that
non-finite float. -/
def fdiv (a b : ℚ) : Option ℚ := if b = 0 then none else some (a / b)

/-- Sum of a list of modelled float values; a non-finite summand makes the
sum non-finite. -/
def optSum (l : List (Option ℚ)) : Option ℚ :=
  l.foldr (fun a acc => Option.bind a (fun x => Option.map (fun y => x + y) acc)) (some 0)

namespace ScenarioB

/-- One cohort row of `scenario_B_iptw_calculation.py`: the three input
columns `Patient ID`, `A (Treatment)` (integers in the source) and
`g (Propensity Score)`. -/
structure Row where
  patientId : ℤ
  treatment : ℤ
  g : ℚ

/-- `P_A1 = 0.5`: the assumed marginal probability of treatment (module
constant of the source). -/
def P_A1 : ℚ := 0.5

/-- The hard-coded four-patient cohort initialised at the top of
`calculate_iptw_weights` (patients 1-4, treatments 1,1,0,0, propensity
scores 0.8, 0.4, 0.9, 0.2). -/
def cohort : List Row :=
  [⟨1, 1, 0.8⟩, ⟨2, 1, 0.4⟩, ⟨3, 0, 0.9⟩, ⟨4, 0, 0.2⟩]

/-- Column `P(A|L)`: `np.where(A == 1, g, 1 - g)` evaluated on one row. -/
def condProb (r : Row) : ℚ :=
  if r.treatment = 1 then r.g else 1 - r.g

/-- Column `Raw IPTW`: `1 / P(A|L)` (numpy float division, so a zero
conditional probability yields a non-finite weight, not an exception). -/
def rawIPTW (r : Row) : Option ℚ := fdiv 1 (condProb r)

/-- Column `P(A)`: `np.where(A == 1, P_A1, 1 - P_A1)` evaluated on one
row. -/
def margProb (r : Row) : ℚ :=
  if r.treatment = 1 then P_A1 else 1 - P_A1

/-- Column `Stabilized IPTW`: `P(A) / P(A|L)` (numpy float division). -/
def stabIPTW (r : Row) : Option ℚ := fdiv (margProb r) (condProb r)

/-- `sum_siptw = df['Stabilized IPTW'].sum()`. -/
def sumSIPTW : Option ℚ := optSum (cohort.map stabIPTW)

/-- Column order of the dataframe after all derived-column assignments
(pandas preserves insertion order). -/
def dfColumns : List String :=
  ["Patient ID", "A (Treatment)", "g (Propensity Score)", "P(A|L)",
   "Raw IPTW", "P(A)", "Stabilized IPTW"]

/-- The five column labels selected for `results_table` on line 82 of the
source, in the order they are selected. -/
def resultsColumns : List String :=
  ["Patient ID", "A (Treatment)", "g (Propensity Score)", "Raw IPTW",
   "Stabilized IPTW"]

/-- The rows of `results_table`: for each cohort row in input order, the
values of the five selected columns. -/
def resultsTable : List (ℤ × ℤ × ℚ × Option ℚ × Option ℚ) :=
  cohort.map (fun r => (r.patientId, r.treatment, r.g, rawIPTW r, stabIPTW r))

end ScenarioB

/-- Claim C1: the spec requires a propensity score at the boundary
(`g ∈ {0,1}` for the relevant treatment arm) to raise a DomainError, but
`calculate_iptw_weights` contains no validation and no exception path at
all: on such a row the conditional probability is 0 and both weights come
out non-finite (`inf` under numpy division, modelled as `none`), silently
propagating into the results.  This theorem evaluates the pipeline at the
failing inputs: a treated row with g = 0 and an untreated row with g = 1. -/
theorem C1_boundary_propensity_nonfinite :
    ScenarioB.condProb ⟨5, 1, 0⟩ = 0 ∧
    ScenarioB.rawIPTW ⟨5, 1, 0⟩ = none ∧
    ScenarioB.stabIPTW ⟨5, 1, 0⟩ = none ∧
    ScenarioB.condProb ⟨6, 0, 1⟩ = 0 ∧
    ScenarioB.rawIPTW ⟨6, 0, 1⟩ = none ∧
    ScenarioB.stabIPTW ⟨6, 0, 1⟩ = none := by
  norm_num [ScenarioB.condProb, ScenarioB.rawIPTW, ScenarioB.stabIPTW, fdiv]

/-- Claim C4: for every row, the raw weight is `1 / P(A|L)` and the
stabilized weight is `P(A) / P(A|L)` (both hold by definition of the
embedded pipeline), hence the stabilized weight equals the raw weight
times the marginal probability — also in the non-finite case, where both
sides are non-finite. -/
theorem C4_weight_identities (r : ScenarioB.Row) :
    ScenarioB.rawIPTW r = fdiv 1 (ScenarioB.condProb r) ∧
    ScenarioB.stabIPTW r = fdiv (ScenarioB.margProb r) (ScenarioB.condProb r) ∧
    ScenarioB.stabIPTW r =
      Option.map (fun w => w * ScenarioB.margProb r) (ScenarioB.rawIPTW r) := by
  refine ⟨rfl, rfl, ?_⟩
  unfold ScenarioB.stabIPTW ScenarioB.rawIPTW fdiv
  by_cases h : ScenarioB.condProb r = 0
  · simp [h]
  · simp only [h, if_false, Option.map_some]
    congr 1
    field_simp

/-- Claim C8: if a row's propensity score lies strictly in (0,1) then its
stabilized weight is a finite, strictly positive value. -/
theorem C8_stabilized_positive (r : ScenarioB.Row)
    (h0 : 0 < r.g) (h1 : r.g < 1) :
    ∃ w, ScenarioB.stabIPTW r = some w ∧ 0 < w := by
  have hc : 0 < ScenarioB.condProb r := by
    unfold ScenarioB.condProb
    split
    · exact h0
    · linarith
  have hm : ScenarioB.margProb r = 1 / 2 := by
    unfold ScenarioB.margProb ScenarioB.P_A1
    split <;> norm_num
  refine ⟨ScenarioB.margProb r / ScenarioB.condProb r, ?_, ?_⟩
  · unfold ScenarioB.stabIPTW fdiv
    simp [ne_of_gt hc]
  · rw [hm]
    positivity

/-- Witness for C8 at the first cohort row (treated, g = 0.8). -/
theorem C8_stabilized_positive_witness :
    ∃ w, ScenarioB.stabIPTW ⟨1, 1, 0.8⟩ = some w ∧ 0 < w :=
  C8_stabilized_positive ⟨1, 1, 0.8⟩ (by norm_num) (by norm_num)

/-- Claim C9: since the assumed marginal probability is the constant 0.5,
`P(A)` equals 0.5 for every row whatever its treatment indicator, and the
stabilized weight is exactly half the raw weight. -/
theorem C9_marginal_half_and_stab_half_raw (r : ScenarioB.Row) :
    ScenarioB.margProb r = 1 / 2 ∧
    ScenarioB.stabIPTW r =
      Option.map (fun w => w / 2) (ScenarioB.rawIPTW r) := by
  have hm : ScenarioB.margProb r = 1 / 2 := by
    unfold ScenarioB.margProb ScenarioB.P_A1
    split <;> norm_num
  refine ⟨hm, ?_⟩
  unfold ScenarioB.stabIPTW ScenarioB.rawIPTW fdiv
  by_cases h : ScenarioB.condProb r = 0
  · simp [h]
  · simp only [h, if_false, Option.map_some]
    rw [hm]
    congr 1
    field_simp
    ring

/-- Claim C10: the reported table has exactly the five columns
`Patient ID`, `A (Treatment)`, `g (Propensity Score)`, `Raw IPTW`,
`Stabilized IPTW` in that order — i.e. the dataframe's columns with the
intermediate `P(A|L)` and `P(A)` columns removed, order preserved — and
its rows keep the input columns' literal values in the original input
order. -/
theorem C10_results_table_shape :
    ScenarioB.resultsColumns =
      ["Patient ID", "A (Treatment)", "g (Propensity Score)", "Raw IPTW",
       "Stabilized IPTW"] ∧
    ScenarioB.resultsColumns =
      ScenarioB.dfColumns.filter
        (fun c => !(["P(A|L)", "P(A)"].contains c)) ∧
    "P(A|L)" ∉ ScenarioB.resultsColumns ∧
    "P(A)" ∉ ScenarioB.resultsColumns ∧
    ScenarioB.resultsTable.map (fun t => (t.1, t.2.1, t.2.2.1)) =
      [(1, 1, 0.8), (2, 1, 0.4), (3, 0, 0.9), (4, 0, 0.2)] := by
  refine ⟨rfl, by decide, by decide, by decide, ?_⟩
  norm_num [ScenarioB.resultsTable, ScenarioB.cohort]

namespace ScenarioC

/-- `CITL_BIAS = -0.10` (given input of `analyze_calibration_metrics`). -/
def CITL_BIAS : ℚ := -0.10

/-- `OBSERVED_RATE = 0.1` (100 positive cases / 1000 total patients). -/
def OBSERVED_RATE : ℚ := 0.1

/-- `CALIBRATION_SLOPE = 0.70` (given input). -/
def CALIBRATION_SLOPE : ℚ := 0.70

/-- `average_predicted_prob = CITL_BIAS + OBSERVED_RATE` (the single
computation of Scenario C). -/
def average_predicted_prob : ℚ := CITL_BIAS + OBSERVED_RATE

/-- First entry of the `Calculation/Interpretation Logic` column: a plain
string literal in the source (no interpolation). -/
def slopeImplicationText : String :=
  "The ideal slope is 1.0. A slope of 0.70 (< 1.0) indicates **poor refinement** and **overly extreme predictions** (Over-fitting). The model is too confident in its predictions."

/-- Third entry of the `Calculation/Interpretation Logic` column: a plain
string literal in the source (no interpolation). -/
def clinicalImplicationText : String :=
  "For individual patients, the model overestimates high risks (e.g., predicting 80% when true risk is 60%) and underestimates low risks. This lack of reliability compromises clinical decision-making based on specific probabilities."

/-- Second entry of the `Calculation/Interpretation Logic` column: an
f-string interpolating `CITL_BIAS`, `OBSERVED_RATE` and the computed
average predicted probability (the latter with `:.2f`). -/
def calcLogicText (citl obs avg : ℚ) : String :=
  "Logic: Avg. Predicted Prob. = CITL Bias + Observed Rate. " ++ fmtQ1 citl ++
  " + " ++ fmtQ1 obs ++ " = " ++ fmtFixed2 avg ++
  ". A result of 0.0 means the model is perfectly calibrated *on average* (CITL=0), as the observed rate is also 0.1. *Note: This is an unusual outcome based on the given inputs.*"

/-- The `Metric` column of `interpretation_data`. -/
def interpMetrics : List String :=
  ["1. Calibration Slope",
   "2. Average Predicted Probability (Calculated)",
   "3. Clinical Implication (Slope 0.70)"]

/-- The `Calculation/Interpretation Logic` column as a function of the
numeric inputs of the scenario, reflecting exactly which entries the
source builds by interpolation (only the middle one) and which are fixed
literals (the two slope-implication texts). -/
def interpLogicColumn (citl obs _slope avg : ℚ) : List String :=
  [slopeImplicationText, calcLogicText citl obs avg, clinicalImplicationText]

/-- The `Result` column as persisted: `str()` of the two float values and
the literal `N/A`. -/
def interpResultCells (slope avg : ℚ) : List String :=
  [fmtQ1 slope, fmtQ1 avg, "N/A"]

end ScenarioC

/-- Claim C3: the computed average predicted probability equals
`CITL_BIAS + OBSERVED_RATE` (definitionally) and is exactly 0 for the
program's fixed inputs -0.10 and 0.1. -/
theorem C3_average_predicted_probability :
    ScenarioC.average_predicted_prob =
      ScenarioC.CITL_BIAS + ScenarioC.OBSERVED_RATE ∧
    ScenarioC.average_predicted_prob = 0 := by
  refine ⟨rfl, ?_⟩
  norm_num [ScenarioC.average_predicted_prob, ScenarioC.CITL_BIAS,
    ScenarioC.OBSERVED_RATE]

/-- Claim C5: the two interpretive strings describing the clinical
implications of the calibration slope (entries 0 and 2 of the logic
column) are fixed literals: whatever the numeric inputs, they are
character-identical to the static texts.  (Only the middle entry, the
calculation-logic string, is interpolated.) -/
theorem C5_interp_strings_static (citl obs slope avg : ℚ) :
    (ScenarioC.interpLogicColumn citl obs slope avg).get? 0 =
      some ScenarioC.slopeImplicationText ∧
    (ScenarioC.interpLogicColumn citl obs slope avg).get? 2 =
      some ScenarioC.clinicalImplicationText :=
  ⟨rfl, rfl⟩

/-- Model of pandas CSV field serialisation with default minimal quoting:
a field containing a comma is wrapped in double quotes.  (None of the
fields produced by these scripts contain a quote character or a newline,
so the comma test is the only one that matters.) -/
def csvField (s : String) : String :=
  if ',' ∈ s.toList then "\"" ++ s ++ "\"" else s

/-- Rendering of a modelled float weight under pandas
`float_format='%.4f'`; a non-finite value prints as `inf`. -/
def optFmt4 : Option ℚ → String
  | none => "inf"
  | some q => fmtFixed4 q

/-- The seven metadata lines Scenario B writes before the CSV payload,
parametrised by the generation timestamp. -/
def metaLinesB (ts : String) : List String :=
  ["# Results for Scenario B: IPTW and Stabilized IPTW Calculation",
   "# ------------------------------------------------------------------",
   "# Task: Calculate Raw IPTW, Stabilized IPTW, and the Sum of SIPTW.",
   "# ASSUMPTION: Marginal Probability P(A=1) = " ++ fmtQ1 ScenarioB.P_A1,
   "# Columns: Raw IPTW and Stabilized IPTW per patient.",
   "# Date Generated: " ++ ts,
   "# ------------------------------------------------------------------"]

/-- Header row of the Scenario B CSV: the selected column labels joined
with commas. -/
def csvHeaderB : String :=
  String.intercalate "," (ScenarioB.resultsColumns.map csvField)

/-- One data row of the Scenario B CSV: integer columns via `str()`,
float columns via `%.4f`. -/
def csvRowB (r : ScenarioB.Row) : String :=
  toString r.patientId ++ "," ++ toString r.treatment ++ "," ++
  fmtFixed4 r.g ++ "," ++ optFmt4 (ScenarioB.rawIPTW r) ++ "," ++
  optFmt4 (ScenarioB.stabIPTW r)

/-- The full line sequence of `data/scenario_B_results.csv`: metadata,
header row, then one data row per cohort row in input order. -/
def fileLinesB (ts : String) : List String :=
  metaLinesB ts ++ [csvHeaderB] ++ ScenarioB.cohort.map csvRowB

/-- The six metadata lines Scenario C writes before the CSV payload,
parametrised by the generation timestamp. -/
def metaLinesC (ts : String) : List String :=
  ["# Results for Scenario C: Calibration Evaluation",
   "# ------------------------------------------------------------------",
   "# Task: Calculate Average Predicted Probability and provide interpretations.",
   "# Input Values: CITL Bias=" ++ fmtQ1 ScenarioC.CITL_BIAS ++
     ", Observed Rate=" ++ fmtQ1 ScenarioC.OBSERVED_RATE,
   "# Date Generated: " ++ ts,
   "# ------------------------------------------------------------------"]

/-- Header row of the Scenario C CSV. -/
def csvHeaderC : String :=
  String.intercalate ","
    (["Metric", "Result", "Calculation/Interpretation Logic"].map csvField)

/-- One data row of the Scenario C CSV from its three cell values. -/
def csvRowC (metric result logic : String) : String :=
  csvField metric ++ "," ++ csvField result ++ "," ++ csvField logic

/-- The three data rows of the Scenario C CSV as a function of the numeric
inputs: the three columns of `results_df` zipped into comma-separated
lines. -/
def dataRowsC (citl obs slope avg : ℚ) : List String :=
  List.zipWith3 csvRowC ScenarioC.interpMetrics
    (ScenarioC.interpResultCells slope avg)
    (ScenarioC.interpLogicColumn citl obs slope avg)

/-- The full line sequence of `data/scenario_C_results.csv`. -/
def fileLinesC (ts : String) : List String :=
  metaLinesC ts ++ [csvHeaderC] ++
    dataRowsC ScenarioC.CITL_BIAS ScenarioC.OBSERVED_RATE
      ScenarioC.CALIBRATION_SLOPE ScenarioC.average_predicted_prob

/-- Claim C6: the persisted output of each scenario is a pure function of
the generation timestamp — two runs produce files of the same length that
agree on every line except the single `Date Generated` metadata line
(index 5 for Scenario B, index 4 for Scenario C). -/
theorem C6_deterministic_modulo_timestamp (t₁ t₂ : String) (i : ℕ) :
    (fileLinesB t₁).length = (fileLinesB t₂).length ∧
    (fileLinesC t₁).length = (fileLinesC t₂).length ∧
    (i ≠ 5 → (fileLinesB t₁).get? i = (fileLinesB t₂).get? i) ∧
    (i ≠ 4 → (fileLinesC t₁).get? i = (fileLinesC t₂).get? i) := by
  refine ⟨rfl, rfl, ?_, ?_⟩
  · intro h
    rcases i with _ | _ | _ | _ | _ | _ | i
    · rfl
    · rfl
    · rfl
    · rfl
    · rfl
    · exact absurd rfl h
    · rfl
  · intro h
    rcases i with _ | _ | _ | _ | _ | i
    · rfl
    · rfl
    · rfl
    · rfl
    · exact absurd rfl h
    · rfl

/-- Witness for C6 at two concrete timestamps and line index 0. -/
theorem C6_deterministic_witness :
    (fileLinesB "2025-01-01 00:00:00").get? 0 =
      (fileLinesB "2025-01-02 12:34:56").get? 0 ∧
    (fileLinesC "2025-01-01 00:00:00").get? 0 =
      (fileLinesC "2025-01-02 12:34:56").get? 0 :=
  ⟨(C6_deterministic_modulo_timestamp "2025-01-01 00:00:00"
      "2025-01-02 12:34:56" 0).2.2.1 (by decide),
   (C6_deterministic_modulo_timestamp "2025-01-01 00:00:00"
      "2025-01-02 12:34:56" 0).2.2.2 (by decide)⟩

/-- A decimal digit character produced from a value reduced mod 10 is
always one of `0`-`9`. -/
lemma digitChar_mod_ten_isDigit (n : ℕ) : (Nat.digitChar (n % 10)).isDigit = true := by
  have h : n % 10 < 10 := Nat.mod_lt _ (by norm_num)
  revert h
  generalize n % 10 = m
  intro h
  interval_cases m <;> decide

/-- Character-level description of the modelled `strftime` output. -/
lemma strftime_data (y mo d h mi s : ℕ) :
    (strftimeYmdHMS y mo d h mi s).data =
      [Nat.digitChar (y / 1000 % 10), Nat.digitChar (y / 100 % 10),
       Nat.digitChar (y / 10 % 10), Nat.digitChar (y % 10), '-',
       Nat.digitChar (mo / 10 % 10), Nat.digitChar (mo % 10), '-',
       Nat.digitChar (d / 10 % 10), Nat.digitChar (d % 10), ' ',
       Nat.digitChar (h / 10 % 10), Nat.digitChar (h % 10), ':',
       Nat.digitChar (mi / 10 % 10), Nat.digitChar (mi % 10), ':',
       Nat.digitChar (s / 10 % 10), Nat.digitChar (s % 10)] := by
  simp [strftimeYmdHMS, pad4, pad2, String.data_append,
    show ("-" : String).data = ['-'] from rfl,
    show (" " : String).data = [' '] from rfl,
    show (":" : String).data = [':'] from rfl]

/-- Shape of a `YYYY-MM-DD HH:MM:SS` timestamp: 19 characters, separators
`-`, space and `:` at the fixed positions, decimal digits everywhere
else. -/
def tsWellFormed (t : String) : Prop :=
  t.length = 19 ∧
  t.toList.get? 4 = some '-' ∧
  t.toList.get? 7 = some '-' ∧
  t.toList.get? 10 = some ' ' ∧
  t.toList.get? 13 = some ':' ∧
  t.toList.get? 16 = some ':' ∧
  ∀ i ∈ ([0, 1, 2, 3, 5, 6, 8, 9, 11, 12, 14, 15, 17, 18] : List ℕ),
    ∃ c, t.toList.get? i = some c ∧ c.isDigit = true

/-- Rendering of the assumed marginal probability in the Scenario B
metadata. -/
lemma fmtQ1_P_A1 : fmtQ1 ScenarioB.P_A1 = "0.5" := by
  unfold ScenarioB.P_A1 fmtQ1
  rw [if_neg (show ¬((0.5 : ℚ) < 0) by norm_num)]
  norm_num
  all_goals decide

/-- Rendering of `CITL_BIAS` in the Scenario C metadata and logic text. -/
lemma fmtQ1_CITL_BIAS : fmtQ1 ScenarioC.CITL_BIAS = "-0.1" := by
  unfold ScenarioC.CITL_BIAS fmtQ1
  rw [if_pos (show (-0.10 : ℚ) < 0 by norm_num)]
  norm_num
  all_goals decide

/-- Rendering of `OBSERVED_RATE`. -/
lemma fmtQ1_OBSERVED_RATE : fmtQ1 ScenarioC.OBSERVED_RATE = "0.1" := by
  unfold ScenarioC.OBSERVED_RATE fmtQ1
  rw [if_neg (show ¬((0.1 : ℚ) < 0) by norm_num)]
  norm_num
  all_goals decide

/-- Rendering of `CALIBRATION_SLOPE`. -/
lemma fmtQ1_CALIBRATION_SLOPE : fmtQ1 ScenarioC.CALIBRATION_SLOPE = "0.7" := by
  unfold ScenarioC.CALIBRATION_SLOPE fmtQ1
  rw [if_neg (show ¬((0.70 : ℚ) < 0) by norm_num)]
  norm_num
  all_goals decide

/-- Rendering of the computed average predicted probability under
`str()`. -/
lemma fmtQ1_avg : fmtQ1 ScenarioC.average_predicted_prob = "0.0" := by
  unfold ScenarioC.average_predicted_prob ScenarioC.CITL_BIAS
    ScenarioC.OBSERVED_RATE fmtQ1
  rw [if_neg (show ¬((-0.10 : ℚ) + 0.1 < 0) by norm_num)]
  norm_num
  all_goals decide

/-- Rendering of the computed average predicted probability under
`:.2f`. -/
lemma fmtFixed2_avg : fmtFixed2 ScenarioC.average_predicted_prob = "0.00" := by
  unfold ScenarioC.average_predicted_prob ScenarioC.CITL_BIAS
    ScenarioC.OBSERVED_RATE fmtFixed2
  norm_num
  all_goals decide

/-- The four Scenario B data rows evaluate to the expected `%.4f`
strings. -/
lemma rowsB_eval :
    ScenarioB.cohort.map csvRowB =
      ["1,1,0.8000,1.2500,0.6250",
       "2,1,0.4000,2.5000,1.2500",
       "3,0,0.9000,10.0000,5.0000",
       "4,0,0.2000,1.2500,0.6250"] := by
  norm_num [ScenarioB.cohort, csvRowB, fmtFixed4, rnd, optFmt4,
    ScenarioB.rawIPTW, ScenarioB.stabIPTW, ScenarioB.condProb,
    ScenarioB.margProb, ScenarioB.P_A1, fdiv, Int.toNat_ofNat]
  all_goals decide

set_option maxRecDepth 4000 in
/-- The three Scenario C data rows evaluate to the expected strings
(third field quoted exactly when it contains a comma). -/
lemma rowsC_eval :
    dataRowsC ScenarioC.CITL_BIAS ScenarioC.OBSERVED_RATE
      ScenarioC.CALIBRATION_SLOPE ScenarioC.average_predicted_prob =
      ["1. Calibration Slope,0.7,The ideal slope is 1.0. A slope of 0.70 (< 1.0) indicates **poor refinement** and **overly extreme predictions** (Over-fitting). The model is too confident in its predictions.",
       "2. Average Predicted Probability (Calculated),0.0,\"Logic: Avg. Predicted Prob. = CITL Bias + Observed Rate. -0.1 + 0.1 = 0.00. A result of 0.0 means the model is perfectly calibrated *on average* (CITL=0), as the observed rate is also 0.1. *Note: This is an unusual outcome based on the given inputs.*\"",
       "3. Clinical Implication (Slope 0.70),N/A,\"For individual patients, the model overestimates high risks (e.g., predicting 80% when true risk is 60%) and underestimates low risks. This lack of reliability compromises clinical decision-making based on specific probabilities.\""] := by
  simp only [dataRowsC, ScenarioC.interpMetrics, ScenarioC.interpResultCells,
    ScenarioC.interpLogicColumn, ScenarioC.calcLogicText, List.zipWith3,
    fmtQ1_CITL_BIAS, fmtQ1_OBSERVED_RATE, fmtQ1_CALIBRATION_SLOPE,
    fmtQ1_avg, fmtFixed2_avg]
  decide

/-- Claim C7: for any in-range clock reading, each scenario's persisted
file is the `#`-prefixed metadata lines (with a well-formed
`YYYY-MM-DD HH:MM:SS` timestamp on the `Date Generated` line), then the
comma-separated header row, then the comma-separated data rows — with
floats fixed to 4 decimal places in Scenario B and default `str()`
precision in Scenario C. -/
theorem C7_output_file_format (y mo d h mi s : ℕ)
    (_hy : y ≤ 9999) (_hmo : mo ≤ 12) (_hd : d ≤ 31) (_hh : h < 24)
    (_hmi : mi < 60) (_hs : s < 60) :
    tsWellFormed (strftimeYmdHMS y mo d h mi s) ∧
    (∀ l ∈ metaLinesB (strftimeYmdHMS y mo d h mi s),
      l.toList.get? 0 = some '#') ∧
    (metaLinesB (strftimeYmdHMS y mo d h mi s)).get? 5 =
      some ("# Date Generated: " ++ strftimeYmdHMS y mo d h mi s) ∧
    csvHeaderB =
      "Patient ID,A (Treatment),g (Propensity Score),Raw IPTW,Stabilized IPTW" ∧
    fileLinesB (strftimeYmdHMS y mo d h mi s) =
      metaLinesB (strftimeYmdHMS y mo d h mi s) ++ [csvHeaderB] ++
        ["1,1,0.8000,1.2500,0.6250",
         "2,1,0.4000,2.5000,1.2500",
         "3,0,0.9000,10.0000,5.0000",
         "4,0,0.2000,1.2500,0.6250"] ∧
    (∀ l ∈ metaLinesC (strftimeYmdHMS y mo d h mi s),
      l.toList.get? 0 = some '#') ∧
    (metaLinesC (strftimeYmdHMS y mo d h mi s)).get? 4 =
      some ("# Date Generated: " ++ strftimeYmdHMS y mo d h mi s) ∧
    csvHeaderC = "Metric,Result,Calculation/Interpretation Logic" ∧
    fileLinesC (strftimeYmdHMS y mo d h mi s) =
      metaLinesC (strftimeYmdHMS y mo d h mi s) ++ [csvHeaderC] ++
        dataRowsC ScenarioC.CITL_BIAS ScenarioC.OBSERVED_RATE
          ScenarioC.CALIBRATION_SLOPE ScenarioC.average_predicted_prob ∧
    dataRowsC ScenarioC.CITL_BIAS ScenarioC.OBSERVED_RATE
      ScenarioC.CALIBRATION_SLOPE ScenarioC.average_predicted_prob =
      ["1. Calibration Slope,0.7,The ideal slope is 1.0. A slope of 0.70 (< 1.0) indicates **poor refinement** and **overly extreme predictions** (Over-fitting). The model is too confident in its predictions.",
       "2. Average Predicted Probability (Calculated),0.0,\"Logic: Avg. Predicted Prob. = CITL Bias + Observed Rate. -0.1 + 0.1 = 0.00. A result of 0.0 means the model is perfectly calibrated *on average* (CITL=0), as the observed rate is also 0.1. *Note: This is an unusual outcome based on the given inputs.*\"",
       "3. Clinical Implication (Slope 0.70),N/A,\"For individual patients, the model overestimates high risks (e.g., predicting 80% when true risk is 60%) and underestimates low risks. This lack of reliability compromises clinical decision-making based on specific probabilities.\""] := by
  refine ⟨?_, ?_, ?_, ?_, ?_, ?_, ?_, ?_, ?_, ?_⟩
  · have hdt := strftime_data y mo d h mi s
    refine ⟨?_, ?_, ?_, ?_, ?_, ?_, ?_⟩
    · show (strftimeYmdHMS y mo d h mi s).data.length = 19
      rw [hdt]
      rfl
    · show (strftimeYmdHMS y mo d h mi s).data.get? 4 = some '-'
      rw [hdt]
      rfl
    · show (strftimeYmdHMS y mo d h mi s).data.get? 7 = some '-'
      rw [hdt]
      rfl
    · show (strftimeYmdHMS y mo d h mi s).data.get? 10 = some ' '
      rw [hdt]
      rfl
    · show (strftimeYmdHMS y mo d h mi s).data.get? 13 = some ':'
      rw [hdt]
      rfl
    · show (strftimeYmdHMS y mo d h mi s).data.get? 16 = some ':'
      rw [hdt]
      rfl
    · intro i hi
      fin_cases hi <;>
        · show ∃ c, (strftimeYmdHMS y mo d h mi s).data.get? _ = some c ∧
            c.isDigit = true
          rw [hdt]
          exact ⟨_, rfl, digitChar_mod_ten_isDigit _⟩
  · intro l hl
    fin_cases hl <;> rfl
  · rfl
  · decide
  · show metaLinesB _ ++ [csvHeaderB] ++ ScenarioB.cohort.map csvRowB = _
    rw [rowsB_eval]
  · intro l hl
    fin_cases hl <;> rfl
  · rfl
  · decide
  · rfl
  · exact rowsC_eval

/-- Witness for C7 at a concrete in-range clock reading. -/
theorem C7_output_file_format_witness :
    tsWellFormed (strftimeYmdHMS 2026 10 12 9 30 5) :=
  (C7_output_file_format 2026 10 12 9 30 5 (by norm_num) (by norm_num)
    (by norm_num) (by norm_num) (by norm_num) (by norm_num)).1

namespace ScenarioB

/-- Column `P(A|L)` under bit-exact float64 semantics: the stored double of
the propensity literal, and for untreated rows the correctly rounded
difference `1 - g`. -/
def condProb64 (r : Row) : ℚ :=
  if r.treatment = 1 then fl r.g else fsub64 1 (fl r.g)

/-- Column `Raw IPTW` under float64 semantics: correctly rounded
`1 / P(A|L)`. -/
def rawIPTW64 (r : Row) : Option ℚ := fdiv64 1 (condProb64 r)

/-- Column `P(A)` under float64 semantics. -/
def margProb64 (r : Row) : ℚ :=
  if r.treatment = 1 then fl P_A1 else fsub64 1 (fl P_A1)

/-- Column `Stabilized IPTW` under float64 semantics. -/
def stabIPTW64 (r : Row) : Option ℚ := fdiv64 (margProb64 r) (condProb64 r)

/-- `df['Stabilized IPTW'].sum()` under float64 semantics. -/
def sumSIPTW64 : Option ℚ := optSum64 (cohort.map stabIPTW64)

end ScenarioB

/-- `rnd` below a half-gap rounds down. -/
lemma rnd_eq_floor (x : ℚ) (h : x - ⌊x⌋ < 1/2) : rnd x = ⌊x⌋ := by
  unfold rnd
  rw [if_pos h]

/-- `rnd` above a half-gap rounds up. -/
lemma rnd_eq_floor_add_one (x : ℚ) (h : (1:ℚ)/2 < x - ⌊x⌋) : rnd x = ⌊x⌋ + 1 := by
  unfold rnd
  rw [if_neg (by linarith), if_pos h]

/-- `rnd` at an exact half-gap with odd floor rounds up (to even). -/
lemma rnd_half_odd (x : ℚ) (h : x - ⌊x⌋ = 1/2) (ho : ⌊x⌋ % 2 = 1) : rnd x = ⌊x⌋ + 1 := by
  unfold rnd
  rw [if_neg (by rw [h]; norm_num), if_neg (by rw [h]; norm_num), if_neg (by omega)]

/-- Evaluation principle for `fl` on a positive value: exhibiting the power
gap `2^L ≤ q < 2^(L+1)` and the rounded scaled significand determines the
result. -/
lemma fl_eval (q : ℚ) (L n : ℤ) (h0 : 0 < q)
    (h1 : (2:ℚ) ^ L ≤ q) (h2 : q < (2:ℚ) ^ (L + 1))
    (hn : rnd (q * (2:ℚ) ^ (52 - L)) = n) :
    fl q = (n : ℚ) * (2:ℚ) ^ (L - 52) := by
  have hlow := Int.zpow_log_le_self (b := 2) (R := ℚ) one_lt_two h0
  have hhigh := Int.lt_zpow_succ_log_self (b := 2) (R := ℚ) one_lt_two q
  have hcast : ((2:ℕ):ℚ) = (2:ℚ) := by norm_num
  rw [hcast] at hlow hhigh
  have hlog : Int.log 2 q = L := by
    have h3 : Int.log 2 q < L + 1 := by
      by_contra hc
      push_neg at hc
      have hx : (2:ℚ) ^ (L + 1) ≤ (2:ℚ) ^ (Int.log 2 q) :=
        zpow_le_zpow_right₀ (by norm_num) hc
      linarith
    have h4 : L ≤ Int.log 2 q := by
      by_contra hc
      push_neg at hc
      have hx : (2:ℚ) ^ (Int.log 2 q + 1) ≤ (2:ℚ) ^ L :=
        zpow_le_zpow_right₀ (by norm_num) (by omega)
      linarith
    omega
  unfold fl
  rw [if_neg (ne_of_gt h0), abs_of_pos h0, if_neg (not_lt.mpr (le_of_lt h0)), hlog,
    neg_sub, hn, one_mul]

/-- Stored double of the literal `0.8`. -/
lemma fl_08 : fl (0.8 : ℚ) = 3602879701896397 / 2 ^ 52 := by
  have hn : rnd ((0.8 : ℚ) * (2:ℚ) ^ ((52 : ℤ) - (-1))) = 7205759403792794 := by
    have hx : (0.8 : ℚ) * (2:ℚ) ^ ((52 : ℤ) - (-1)) = 36028797018963968/5 := by norm_num
    have hf : ⌊(36028797018963968/5 : ℚ)⌋ = 7205759403792793 := by norm_num
    rw [hx, rnd_eq_floor_add_one _ (by rw [hf]; norm_num), hf]
    norm_num
  have h := fl_eval (0.8 : ℚ) (-1) 7205759403792794 (by norm_num) (by norm_num)
    (by norm_num) hn
  rw [h]
  norm_num

/-- Stored double of the literal `0.4`. -/
lemma fl_04 : fl (0.4 : ℚ) = 3602879701896397 / 2 ^ 53 := by
  have hn : rnd ((0.4 : ℚ) * (2:ℚ) ^ ((52 : ℤ) - (-2))) = 7205759403792794 := by
    have hx : (0.4 : ℚ) * (2:ℚ) ^ ((52 : ℤ) - (-2)) = 36028797018963968/5 := by norm_num
    have hf : ⌊(36028797018963968/5 : ℚ)⌋ = 7205759403792793 := by norm_num
    rw [hx, rnd_eq_floor_add_one _ (by rw [hf]; norm_num), hf]
    norm_num
  have h := fl_eval (0.4 : ℚ) (-2) 7205759403792794 (by norm_num) (by norm_num)
    (by norm_num) hn
  rw [h]
  norm_num

/-- Stored double of the literal `0.9`. -/
lemma fl_09 : fl (0.9 : ℚ) = 8106479329266893 / 2 ^ 53 := by
  have hn : rnd ((0.9 : ℚ) * (2:ℚ) ^ ((52 : ℤ) - (-1))) = 8106479329266893 := by
    have hx : (0.9 : ℚ) * (2:ℚ) ^ ((52 : ℤ) - (-1)) = 40532396646334464/5 := by norm_num
    have hf : ⌊(40532396646334464/5 : ℚ)⌋ = 8106479329266892 := by norm_num
    rw [hx, rnd_eq_floor_add_one _ (by rw [hf]; norm_num), hf]
    norm_num
  have h := fl_eval (0.9 : ℚ) (-1) 8106479329266893 (by norm_num) (by norm_num)
    (by norm_num) hn
  rw [h]
  norm_num

/-- Stored double of the literal `0.2`. -/
lemma fl_02 : fl (0.2 : ℚ) = 3602879701896397 / 2 ^ 54 := by
  have hn : rnd ((0.2 : ℚ) * (2:ℚ) ^ ((52 : ℤ) - (-3))) = 7205759403792794 := by
    have hx : (0.2 : ℚ) * (2:ℚ) ^ ((52 : ℤ) - (-3)) = 36028797018963968/5 := by norm_num
    have hf : ⌊(36028797018963968/5 : ℚ)⌋ = 7205759403792793 := by norm_num
    rw [hx, rnd_eq_floor_add_one _ (by rw [hf]; norm_num), hf]
    norm_num
  have h := fl_eval (0.2 : ℚ) (-3) 7205759403792794 (by norm_num) (by norm_num)
    (by norm_num) hn
  rw [h]
  norm_num

/-- Stored double of the literal `0.1` (for comparison against the claimed
conditional probability of patient 3). -/
lemma fl_01 : fl (0.1 : ℚ) = 3602879701896397 / 2 ^ 55 := by
  have hn : rnd ((0.1 : ℚ) * (2:ℚ) ^ ((52 : ℤ) - (-4))) = 7205759403792794 := by
    have hx : (0.1 : ℚ) * (2:ℚ) ^ ((52 : ℤ) - (-4)) = 36028797018963968/5 := by norm_num
    have hf : ⌊(36028797018963968/5 : ℚ)⌋ = 7205759403792793 := by norm_num
    rw [hx, rnd_eq_floor_add_one _ (by rw [hf]; norm_num), hf]
    norm_num
  have h := fl_eval (0.1 : ℚ) (-4) 7205759403792794 (by norm_num) (by norm_num)
    (by norm_num) hn
  rw [h]
  norm_num

/-- `0.5` is exactly representable. -/
lemma fl_half : fl (1/2 : ℚ) = 1/2 := by
  have hn : rnd ((1/2 : ℚ) * (2:ℚ) ^ ((52 : ℤ) - (-1))) = 4503599627370496 := by
    have hx : (1/2 : ℚ) * (2:ℚ) ^ ((52 : ℤ) - (-1)) = 4503599627370496 := by norm_num
    have hf : ⌊(4503599627370496 : ℚ)⌋ = 4503599627370496 := by norm_num
    rw [hx, rnd_eq_floor _ (by rw [hf]; norm_num), hf]
  have h := fl_eval (1/2 : ℚ) (-1) 4503599627370496 (by norm_num) (by norm_num)
    (by norm_num) hn
  rw [h]
  norm_num

/-- `1 - fl(0.9)` is exactly representable (Sterbenz), value
`0.09999999999999998`. -/
lemma fl_c3 : fl (900719925474099 / 2 ^ 53 : ℚ) = 900719925474099 / 2 ^ 53 := by
  have hn : rnd ((900719925474099 / 2 ^ 53 : ℚ) * (2:ℚ) ^ ((52 : ℤ) - (-4))) =
      7205759403792792 := by
    have hx : (900719925474099 / 2 ^ 53 : ℚ) * (2:ℚ) ^ ((52 : ℤ) - (-4)) =
        7205759403792792 := by norm_num
    have hf : ⌊(7205759403792792 : ℚ)⌋ = 7205759403792792 := by norm_num
    rw [hx, rnd_eq_floor _ (by rw [hf]; norm_num), hf]
  have h := fl_eval (900719925474099 / 2 ^ 53 : ℚ) (-4) 7205759403792792 (by norm_num)
    (by norm_num) (by norm_num) hn
  rw [h]
  norm_num

/-- `1 - fl(0.2)` rounds (an exact tie, to even) back to the stored double
of `0.8`. -/
lemma fl_c4 : fl (14411518807585587 / 2 ^ 54 : ℚ) = 3602879701896397 / 2 ^ 52 := by
  have hn : rnd ((14411518807585587 / 2 ^ 54 : ℚ) * (2:ℚ) ^ ((52 : ℤ) - (-1))) =
      7205759403792794 := by
    have hx : (14411518807585587 / 2 ^ 54 : ℚ) * (2:ℚ) ^ ((52 : ℤ) - (-1)) =
        14411518807585587/2 := by norm_num
    have hf : ⌊(14411518807585587/2 : ℚ)⌋ = 7205759403792793 := by norm_num
    rw [hx, rnd_half_odd _ (by rw [hf]; norm_num) (by rw [hf]; decide), hf]
    norm_num
  have h := fl_eval (14411518807585587 / 2 ^ 54 : ℚ) (-1) 7205759403792794 (by norm_num)
    (by norm_num) (by norm_num) hn
  rw [h]
  norm_num

/-- `0.5 / fl(0.8)` (equally `2^51` over the stored significand of 0.8)
rounds to exactly `0.625`. -/
lemma fl_inv51 : fl (2251799813685248 / 3602879701896397 : ℚ) = 5/8 := by
  have hn : rnd ((2251799813685248 / 3602879701896397 : ℚ) * (2:ℚ) ^ ((52 : ℤ) - (-1))) =
      5629499534213120 := by
    have hx : (2251799813685248 / 3602879701896397 : ℚ) * (2:ℚ) ^ ((52 : ℤ) - (-1)) =
        20282409603651670423947251286016/3602879701896397 := by norm_num
    have hf : ⌊(20282409603651670423947251286016/3602879701896397 : ℚ)⌋ =
        5629499534213119 := by norm_num
    rw [hx, rnd_eq_floor_add_one _ (by rw [hf]; norm_num), hf]
    norm_num
  have h := fl_eval (2251799813685248 / 3602879701896397 : ℚ) (-1) 5629499534213120
    (by norm_num) (by norm_num) (by norm_num) hn
  rw [h]
  norm_num

/-- `1 / fl(0.8)` rounds to exactly `1.25`. -/
lemma fl_inv52 : fl (4503599627370496 / 3602879701896397 : ℚ) = 5/4 := by
  have hn : rnd ((4503599627370496 / 3602879701896397 : ℚ) * (2:ℚ) ^ ((52 : ℤ) - 0)) =
      5629499534213120 := by
    have hx : (4503599627370496 / 3602879701896397 : ℚ) * (2:ℚ) ^ ((52 : ℤ) - 0) =
        20282409603651670423947251286016/3602879701896397 := by norm_num
    have hf : ⌊(20282409603651670423947251286016/3602879701896397 : ℚ)⌋ =
        5629499534213119 := by norm_num
    rw [hx, rnd_eq_floor_add_one _ (by rw [hf]; norm_num), hf]
    norm_num
  have h := fl_eval (4503599627370496 / 3602879701896397 : ℚ) 0 5629499534213120
    (by norm_num) (by norm_num) (by norm_num) hn
  rw [h]
  norm_num

/-- `1 / fl(0.4)` rounds to exactly `2.5`. -/
lemma fl_inv53 : fl (9007199254740992 / 3602879701896397 : ℚ) = 5/2 := by
  have hn : rnd ((9007199254740992 / 3602879701896397 : ℚ) * (2:ℚ) ^ ((52 : ℤ) - 1)) =
      5629499534213120 := by
    have hx : (9007199254740992 / 3602879701896397 : ℚ) * (2:ℚ) ^ ((52 : ℤ) - 1) =
        20282409603651670423947251286016/3602879701896397 := by norm_num
    have hf : ⌊(20282409603651670423947251286016/3602879701896397 : ℚ)⌋ =
        5629499534213119 := by norm_num
    rw [hx, rnd_eq_floor_add_one _ (by rw [hf]; norm_num), hf]
    norm_num
  have h := fl_eval (9007199254740992 / 3602879701896397 : ℚ) 1 5629499534213120
    (by norm_num) (by norm_num) (by norm_num) hn
  rw [h]
  norm_num

/-- `1 / (1 - fl(0.9))`: one ulp above 10, value `10.000000000000002`. -/
lemma fl_raw3q : fl (9007199254740992 / 900719925474099 : ℚ) = 5629499534213121 / 2 ^ 49 := by
  have hn : rnd ((9007199254740992 / 900719925474099 : ℚ) * (2:ℚ) ^ ((52 : ℤ) - 3)) =
      5629499534213121 := by
    have hx : (9007199254740992 / 900719925474099 : ℚ) * (2:ℚ) ^ ((52 : ℤ) - 3) =
        5070602400912917605986812821504/900719925474099 := by norm_num
    have hf : ⌊(5070602400912917605986812821504/900719925474099 : ℚ)⌋ =
        5629499534213121 := by norm_num
    rw [hx, rnd_eq_floor _ (by rw [hf]; norm_num), hf]
  have h := fl_eval (9007199254740992 / 900719925474099 : ℚ) 3 5629499534213121
    (by norm_num) (by norm_num) (by norm_num) hn
  rw [h]
  norm_num

/-- `0.5 / (1 - fl(0.9))`: one ulp above 5, value `5.000000000000001`. -/
lemma fl_stab3q : fl (4503599627370496 / 900719925474099 : ℚ) = 5629499534213121 / 2 ^ 50 := by
  have hn : rnd ((4503599627370496 / 900719925474099 : ℚ) * (2:ℚ) ^ ((52 : ℤ) - 2)) =
      5629499534213121 := by
    have hx : (4503599627370496 / 900719925474099 : ℚ) * (2:ℚ) ^ ((52 : ℤ) - 2) =
        5070602400912917605986812821504/900719925474099 := by norm_num
    have hf : ⌊(5070602400912917605986812821504/900719925474099 : ℚ)⌋ =
        5629499534213121 := by norm_num
    rw [hx, rnd_eq_floor _ (by rw [hf]; norm_num), hf]
  have h := fl_eval (4503599627370496 / 900719925474099 : ℚ) 2 5629499534213121
    (by norm_num) (by norm_num) (by norm_num) hn
  rw [h]
  norm_num

/-- `0.625` is exactly representable. -/
lemma fl_58 : fl (5/8 : ℚ) = 5/8 := by
  have hn : rnd ((5/8 : ℚ) * (2:ℚ) ^ ((52 : ℤ) - (-1))) = 5629499534213120 := by
    have hx : (5/8 : ℚ) * (2:ℚ) ^ ((52 : ℤ) - (-1)) = 5629499534213120 := by norm_num
    have hf : ⌊(5629499534213120 : ℚ)⌋ = 5629499534213120 := by norm_num
    rw [hx, rnd_eq_floor _ (by rw [hf]; norm_num), hf]
  have h := fl_eval (5/8 : ℚ) (-1) 5629499534213120 (by norm_num) (by norm_num)
    (by norm_num) hn
  rw [h]
  norm_num

/-- `1.875` is exactly representable. -/
lemma fl_158 : fl (15/8 : ℚ) = 15/8 := by
  have hn : rnd ((15/8 : ℚ) * (2:ℚ) ^ ((52 : ℤ) - 0)) = 8444249301319680 := by
    have hx : (15/8 : ℚ) * (2:ℚ) ^ ((52 : ℤ) - 0) = 8444249301319680 := by norm_num
    have hf : ⌊(8444249301319680 : ℚ)⌋ = 8444249301319680 := by norm_num
    rw [hx, rnd_eq_floor _ (by rw [hf]; norm_num), hf]
  have h := fl_eval (15/8 : ℚ) 0 8444249301319680 (by norm_num) (by norm_num)
    (by norm_num) hn
  rw [h]
  norm_num

/-- `1.875 + stab₃` is exactly representable. -/
lemma fl_sum3 : fl (7740561859543041 / 2 ^ 50 : ℚ) = 7740561859543041 / 2 ^ 50 := by
  have hn : rnd ((7740561859543041 / 2 ^ 50 : ℚ) * (2:ℚ) ^ ((52 : ℤ) - 2)) =
      7740561859543041 := by
    have hx : (7740561859543041 / 2 ^ 50 : ℚ) * (2:ℚ) ^ ((52 : ℤ) - 2) =
        7740561859543041 := by norm_num
    have hf : ⌊(7740561859543041 : ℚ)⌋ = 7740561859543041 := by norm_num
    rw [hx, rnd_eq_floor _ (by rw [hf]; norm_num), hf]
  have h := fl_eval (7740561859543041 / 2 ^ 50 : ℚ) 2 7740561859543041 (by norm_num)
    (by norm_num) (by norm_num) hn
  rw [h]
  norm_num

/-- The final cohort sum, one ulp above 7.5: `7.500000000000001`. -/
lemma fl_sum4 : fl (8444249301319681 / 2 ^ 50 : ℚ) = 8444249301319681 / 2 ^ 50 := by
  have hn : rnd ((8444249301319681 / 2 ^ 50 : ℚ) * (2:ℚ) ^ ((52 : ℤ) - 2)) =
      8444249301319681 := by
    have hx : (8444249301319681 / 2 ^ 50 : ℚ) * (2:ℚ) ^ ((52 : ℤ) - 2) =
        8444249301319681 := by norm_num
    have hf : ⌊(8444249301319681 : ℚ)⌋ = 8444249301319681 := by norm_num
    rw [hx, rnd_eq_floor _ (by rw [hf]; norm_num), hf]
  have h := fl_eval (8444249301319681 / 2 ^ 50 : ℚ) 2 8444249301319681 (by norm_num)
    (by norm_num) (by norm_num) hn
  rw [h]
  norm_num

/-- float64 conditional probability of patient 1 (treated, g = 0.8): the
stored double of 0.8. -/
lemma cond64_r1 : ScenarioB.condProb64 ⟨1, 1, 0.8⟩ = 3602879701896397 / 2 ^ 52 := by
  show fl (0.8 : ℚ) = _
  exact fl_08

/-- float64 conditional probability of patient 2 (treated, g = 0.4). -/
lemma cond64_r2 : ScenarioB.condProb64 ⟨2, 1, 0.4⟩ = 3602879701896397 / 2 ^ 53 := by
  show fl (0.4 : ℚ) = _
  exact fl_04

/-- float64 conditional probability of patient 3 (untreated, g = 0.9):
`1 - 0.9` computed in doubles, `0.09999999999999998`, not `0.1`. -/
lemma cond64_r3 : ScenarioB.condProb64 ⟨3, 0, 0.9⟩ = 900719925474099 / 2 ^ 53 := by
  show fsub64 1 (fl (0.9 : ℚ)) = _
  rw [fl_09]
  unfold fsub64
  have hx : (1 : ℚ) - 8106479329266893 / 2 ^ 53 = 900719925474099 / 2 ^ 53 := by norm_num
  rw [hx, fl_c3]

/-- float64 conditional probability of patient 4 (untreated, g = 0.2):
`1 - 0.2` computed in doubles lands exactly on the stored double of 0.8. -/
lemma cond64_r4 : ScenarioB.condProb64 ⟨4, 0, 0.2⟩ = 3602879701896397 / 2 ^ 52 := by
  show fsub64 1 (fl (0.2 : ℚ)) = _
  rw [fl_02]
  unfold fsub64
  have hx : (1 : ℚ) - 3602879701896397 / 2 ^ 54 = 14411518807585587 / 2 ^ 54 := by norm_num
  rw [hx, fl_c4]

/-- float64 raw weight of patient 1: exactly 1.25. -/
lemma raw64_r1 : ScenarioB.rawIPTW64 ⟨1, 1, 0.8⟩ = some (5/4) := by
  show fdiv64 1 (ScenarioB.condProb64 ⟨1, 1, 0.8⟩) = _
  rw [cond64_r1]
  unfold fdiv64
  rw [if_neg (by norm_num)]
  have hx : (1 : ℚ) / (3602879701896397 / 2 ^ 52) =
      4503599627370496 / 3602879701896397 := by norm_num
  rw [hx, fl_inv52]

/-- float64 raw weight of patient 2: exactly 2.5. -/
lemma raw64_r2 : ScenarioB.rawIPTW64 ⟨2, 1, 0.4⟩ = some (5/2) := by
  show fdiv64 1 (ScenarioB.condProb64 ⟨2, 1, 0.4⟩) = _
  rw [cond64_r2]
  unfold fdiv64
  rw [if_neg (by norm_num)]
  have hx : (1 : ℚ) / (3602879701896397 / 2 ^ 53) =
      9007199254740992 / 3602879701896397 := by norm_num
  rw [hx, fl_inv53]

/-- float64 raw weight of patient 3: one ulp above 10. -/
lemma raw64_r3 : ScenarioB.rawIPTW64 ⟨3, 0, 0.9⟩ = some (5629499534213121 / 2 ^ 49) := by
  show fdiv64 1 (ScenarioB.condProb64 ⟨3, 0, 0.9⟩) = _
  rw [cond64_r3]
  unfold fdiv64
  rw [if_neg (by norm_num)]
  have hx : (1 : ℚ) / (900719925474099 / 2 ^ 53) =
      9007199254740992 / 900719925474099 := by norm_num
  rw [hx, fl_raw3q]

/-- float64 raw weight of patient 4: exactly 1.25. -/
lemma raw64_r4 : ScenarioB.rawIPTW64 ⟨4, 0, 0.2⟩ = some (5/4) := by
  show fdiv64 1 (ScenarioB.condProb64 ⟨4, 0, 0.2⟩) = _
  rw [cond64_r4]
  unfold fdiv64
  rw [if_neg (by norm_num)]
  have hx : (1 : ℚ) / (3602879701896397 / 2 ^ 52) =
      4503599627370496 / 3602879701896397 := by norm_num
  rw [hx, fl_inv52]

/-- The float64 marginal probability is exactly 0.5 for every row. -/
lemma marg64 (r : ScenarioB.Row) : ScenarioB.margProb64 r = 1/2 := by
  have h05 : (ScenarioB.P_A1 : ℚ) = 1/2 := by unfold ScenarioB.P_A1; norm_num
  unfold ScenarioB.margProb64
  rw [h05]
  split
  · exact fl_half
  · unfold fsub64
    have hx : (1 : ℚ) - fl (1/2) = 1/2 := by rw [fl_half]; norm_num
    rw [hx, fl_half]

/-- float64 stabilized weight of patient 1: exactly 0.625. -/
lemma stab64_r1 : ScenarioB.stabIPTW64 ⟨1, 1, 0.8⟩ = some (5/8) := by
  show fdiv64 (ScenarioB.margProb64 ⟨1, 1, 0.8⟩) (ScenarioB.condProb64 ⟨1, 1, 0.8⟩) = _
  rw [marg64, cond64_r1]
  unfold fdiv64
  rw [if_neg (by norm_num)]
  have hx : (1/2 : ℚ) / (3602879701896397 / 2 ^ 52) =
      2251799813685248 / 3602879701896397 := by norm_num
  rw [hx, fl_inv51]

/-- float64 stabilized weight of patient 2: exactly 1.25. -/
lemma stab64_r2 : ScenarioB.stabIPTW64 ⟨2, 1, 0.4⟩ = some (5/4) := by
  show fdiv64 (ScenarioB.margProb64 ⟨2, 1, 0.4⟩) (ScenarioB.condProb64 ⟨2, 1, 0.4⟩) = _
  rw [marg64, cond64_r2]
  unfold fdiv64
  rw [if_neg (by norm_num)]
  have hx : (1/2 : ℚ) / (3602879701896397 / 2 ^ 53) =
      4503599627370496 / 3602879701896397 := by norm_num
  rw [hx, fl_inv52]

/-- float64 stabilized weight of patient 3: one ulp above 5. -/
lemma stab64_r3 : ScenarioB.stabIPTW64 ⟨3, 0, 0.9⟩ = some (5629499534213121 / 2 ^ 50) := by
  show fdiv64 (ScenarioB.margProb64 ⟨3, 0, 0.9⟩) (ScenarioB.condProb64 ⟨3, 0, 0.9⟩) = _
  rw [marg64, cond64_r3]
  unfold fdiv64
  rw [if_neg (by norm_num)]
  have hx : (1/2 : ℚ) / (900719925474099 / 2 ^ 53) =
      4503599627370496 / 900719925474099 := by norm_num
  rw [hx, fl_stab3q]

/-- float64 stabilized weight of patient 4: exactly 0.625. -/
lemma stab64_r4 : ScenarioB.stabIPTW64 ⟨4, 0, 0.2⟩ = some (5/8) := by
  show fdiv64 (ScenarioB.margProb64 ⟨4, 0, 0.2⟩) (ScenarioB.condProb64 ⟨4, 0, 0.2⟩) = _
  rw [marg64, cond64_r4]
  unfold fdiv64
  rw [if_neg (by norm_num)]
  have hx : (1/2 : ℚ) / (3602879701896397 / 2 ^ 52) =
      2251799813685248 / 3602879701896397 := by norm_num
  rw [hx, fl_inv51]

/-- The float64 cohort sum: one ulp above 7.5 (`7.500000000000001`). -/
lemma sum64_eval : ScenarioB.sumSIPTW64 = some (8444249301319681 / 2 ^ 50) := by
  have f1 : fadd64 0 (5/8) = 5/8 := by
    unfold fadd64
    have hx : (0 : ℚ) + 5/8 = 5/8 := by norm_num
    rw [hx, fl_58]
  have f2 : fadd64 (5/8) (5/4) = 15/8 := by
    unfold fadd64
    have hx : (5/8 : ℚ) + 5/4 = 15/8 := by norm_num
    rw [hx, fl_158]
  have f3 : fadd64 (15/8) (5629499534213121 / 2 ^ 50) = 7740561859543041 / 2 ^ 50 := by
    unfold fadd64
    have hx : (15/8 : ℚ) + 5629499534213121 / 2 ^ 50 = 7740561859543041 / 2 ^ 50 := by
      norm_num
    rw [hx, fl_sum3]
  have f4 : fadd64 (7740561859543041 / 2 ^ 50) (5/8) = 8444249301319681 / 2 ^ 50 := by
    unfold fadd64
    have hx : (7740561859543041 / 2 ^ 50 : ℚ) + 5/8 = 8444249301319681 / 2 ^ 50 := by
      norm_num
    rw [hx, fl_sum4]
  show optSum64 (ScenarioB.cohort.map ScenarioB.stabIPTW64) = _
  have hm : ScenarioB.cohort.map ScenarioB.stabIPTW64 =
      [some (5/8), some (5/4), some (5629499534213121 / 2 ^ 50), some (5/8)] := by
    simp only [ScenarioB.cohort, List.map_cons, List.map_nil, stab64_r1, stab64_r2,
      stab64_r3, stab64_r4]
  rw [hm]
  unfold optSum64
  simp only [List.foldl_cons, List.foldl_nil, Option.some_bind, Option.map_some,
    Option.map_some']
  rw [f1, f2, f3, f4]

/-- The stored double of 0.8 prints as `0.8000` under `%.4f`. -/
lemma fmt4_g08 : fmtFixed4 (3602879701896397 / 2 ^ 52 : ℚ) = "0.8000" := by
  norm_num [fmtFixed4, rnd, Int.toNat_ofNat]
  all_goals decide

/-- The stored double of 0.4 prints as `0.4000` under `%.4f`. -/
lemma fmt4_g04 : fmtFixed4 (3602879701896397 / 2 ^ 53 : ℚ) = "0.4000" := by
  norm_num [fmtFixed4, rnd, Int.toNat_ofNat]
  all_goals decide

/-- Patient 3's conditional probability `0.09999999999999998` prints as
`0.1000` under `%.4f`. -/
lemma fmt4_c3 : fmtFixed4 (900719925474099 / 2 ^ 53 : ℚ) = "0.1000" := by
  norm_num [fmtFixed4, rnd, Int.toNat_ofNat]
  all_goals decide

/-- `1.25` prints as `1.2500`. -/
lemma fmt4_54 : fmtFixed4 (5/4 : ℚ) = "1.2500" := by
  norm_num [fmtFixed4, rnd, Int.toNat_ofNat]
  all_goals decide

/-- `2.5` prints as `2.5000`. -/
lemma fmt4_52 : fmtFixed4 (5/2 : ℚ) = "2.5000" := by
  norm_num [fmtFixed4, rnd, Int.toNat_ofNat]
  all_goals decide

/-- `0.625` prints as `0.6250`. -/
lemma fmt4_58 : fmtFixed4 (5/8 : ℚ) = "0.6250" := by
  norm_num [fmtFixed4, rnd, Int.toNat_ofNat]
  all_goals decide

/-- Patient 3's raw weight `10.000000000000002` prints as `10.0000`. -/
lemma fmt4_raw3 : fmtFixed4 (5629499534213121 / 2 ^ 49 : ℚ) = "10.0000" := by
  norm_num [fmtFixed4, rnd, Int.toNat_ofNat]
  all_goals decide

/-- Patient 3's stabilized weight `5.000000000000001` prints as `5.0000`. -/
lemma fmt4_stab3 : fmtFixed4 (5629499534213121 / 2 ^ 50 : ℚ) = "5.0000" := by
  norm_num [fmtFixed4, rnd, Int.toNat_ofNat]
  all_goals decide

/-- The cohort sum `7.500000000000001` prints as `7.5000`. -/
lemma fmt4_sum : fmtFixed4 (8444249301319681 / 2 ^ 50 : ℚ) = "7.5000" := by
  norm_num [fmtFixed4, rnd, Int.toNat_ofNat]
  all_goals decide

/-- Claim C2 (counterexample): under bit-exact float64 semantics the
program's computed values at patient 3 (untreated, g = 0.9) are NOT the
exact decimals the claim states: the conditional probability is neither
0.1 nor the stored double of 0.1, the raw weight is not 10, the stabilized
weight is not 5, and the cohort sum of stabilized weights is not 7.5 (all
four claimed values except 0.1 are exactly representable doubles, so the
comparison is unambiguous). -/
theorem C2_float64_counterexample :
    ScenarioB.condProb64 ⟨3, 0, 0.9⟩ ≠ 0.1 ∧
    ScenarioB.condProb64 ⟨3, 0, 0.9⟩ ≠ fl (0.1 : ℚ) ∧
    ScenarioB.rawIPTW64 ⟨3, 0, 0.9⟩ ≠ some 10 ∧
    ScenarioB.stabIPTW64 ⟨3, 0, 0.9⟩ ≠ some 5 ∧
    ScenarioB.sumSIPTW64 ≠ some 7.5 := by
  refine ⟨?_, ?_, ?_, ?_, ?_⟩
  · rw [cond64_r3]
    norm_num
  · rw [cond64_r3, fl_01]
    norm_num
  · rw [raw64_r3]
    norm_num [Option.some.injEq]
  · rw [stab64_r3]
    norm_num [Option.some.injEq]
  · rw [sum64_eval]
    norm_num [Option.some.injEq]

/-- Claim C2 (amended): under bit-exact float64 semantics the cohort's
computed values are: conditional probabilities equal to the stored doubles
of 0.8 and 0.4 for patients 1 and 2, `0.09999999999999998` for patient 3,
and again the stored double of 0.8 for patient 4; raw weights exactly
1.25 and 2.5 for patients 1, 2, 4 but `10.000000000000002` for patient 3;
stabilized weights exactly 0.625 and 1.25 for patients 1, 2, 4 but
`5.000000000000001` for patient 3; and cohort sum `7.500000000000001`.
Patient 3's values and the sum therefore match the claimed 0.1, 10.0, 5.0
and 7.5 only at the persisted `%.4f` precision, at which every value
prints as documented. -/
theorem C2_cohort_values_float64 :
    ScenarioB.cohort.map ScenarioB.condProb64 =
      [3602879701896397 / 2 ^ 52, 3602879701896397 / 2 ^ 53,
       900719925474099 / 2 ^ 53, 3602879701896397 / 2 ^ 52] ∧
    ScenarioB.cohort.map ScenarioB.rawIPTW64 =
      [some 1.25, some 2.5, some (5629499534213121 / 2 ^ 49), some 1.25] ∧
    ScenarioB.cohort.map ScenarioB.stabIPTW64 =
      [some 0.625, some 1.25, some (5629499534213121 / 2 ^ 50), some 0.625] ∧
    ScenarioB.sumSIPTW64 = some (8444249301319681 / 2 ^ 50) ∧
    (ScenarioB.cohort.map fun r => fmtFixed4 (ScenarioB.condProb64 r)) =
      ["0.8000", "0.4000", "0.1000", "0.8000"] ∧
    (ScenarioB.cohort.map fun r => optFmt4 (ScenarioB.rawIPTW64 r)) =
      ["1.2500", "2.5000", "10.0000", "1.2500"] ∧
    (ScenarioB.cohort.map fun r => optFmt4 (ScenarioB.stabIPTW64 r)) =
      ["0.6250", "1.2500", "5.0000", "0.6250"] ∧
    ScenarioB.sumSIPTW64.map fmtFixed4 = some "7.5000" := by
  refine ⟨?_, ?_, ?_, sum64_eval, ?_, ?_, ?_, ?_⟩
  · simp only [ScenarioB.cohort, List.map_cons, List.map_nil, cond64_r1, cond64_r2,
      cond64_r3, cond64_r4]
  · simp only [ScenarioB.cohort, List.map_cons, List.map_nil, raw64_r1, raw64_r2,
      raw64_r3, raw64_r4]
    norm_num
  · simp only [ScenarioB.cohort, List.map_cons, List.map_nil, stab64_r1, stab64_r2,
      stab64_r3, stab64_r4]
    norm_num
  · simp only [ScenarioB.cohort, List.map_cons, List.map_nil, cond64_r1, cond64_r2,
      cond64_r3, cond64_r4, fmt4_g08, fmt4_g04, fmt4_c3]
  · simp only [ScenarioB.cohort, List.map_cons, List.map_nil, raw64_r1, raw64_r2,
      raw64_r3, raw64_r4, optFmt4, fmt4_54, fmt4_52, fmt4_raw3]
  · simp only [ScenarioB.cohort, List.map_cons, List.map_nil, stab64_r1, stab64_r2,
      stab64_r3, stab64_r4, optFmt4, fmt4_58, fmt4_54, fmt4_stab3]
  · rw [sum64_eval]
    simp only [Option.map_some, Option.map_some', fmt4_sum]
